import Mathlib

/-!
Verification development for the cfr-court-opinions frontend (src/main.js).

The program builds SQL query text with the knex query builder and runs it on
an embedded sqlite-wasm engine.  We embed the knex builder state reached by
the program's calls: each knex method call (`join`, `leftJoin`, `where`,
`select`, `groupBy`, `sum`, `countDistinct`, `orderBy`, `limit`, `distinct`)
is a pure operation on a `QueryBuilder` record, and `query.toString()` in the
source renders exactly this state to SQL text (knex itself is an external
library, outside the repository).  A join, predicate, column, ordering or
limit appears in the produced query text iff it appears in the builder state.

JavaScript `throw new Error(msg)` is embedded as `Except.error msg`;
JavaScript `null` as `Option.none`; the truthiness test `if (str)` on the
string-valued filter fields as `str ≠ ""`.
-/

namespace CfrCourtOpinions

/-- Kind of a knex join clause: `.join` (inner) or `.leftJoin`. -/
inductive JoinKind where
  | inner : JoinKind
  | left : JoinKind
deriving DecidableEq, Repr

/-- One join clause: the joined table and the list of column-equality
`on` conditions (`this.on(a, '=', b)` chains in the source). -/
structure JoinClause where
  kind : JoinKind
  table : String
  onConds : List (String × String)
deriving DecidableEq, Repr

/-- One `where(column, value)` equality predicate. -/
structure WhereEq where
  column : String
  value : String
deriving DecidableEq, Repr

/-- One item of the select list: a plain column, a raw SQL expression
(`knex.raw`), or `table.*`. -/
inductive SelectItem where
  | col : String → SelectItem
  | raw : String → SelectItem
  | tableStar : String → SelectItem
deriving DecidableEq, Repr

/-- An aggregate added by `.sum('expr as name')` or
`.countDistinct('expr as name')`. -/
inductive Aggregate where
  | sumAs : String → String → Aggregate
  | countDistinctAs : String → String → Aggregate
deriving DecidableEq, Repr

/-- One `orderBy` clause; knex uses direction `"asc"` when none is given. -/
structure OrderClause where
  column : String
  direction : String
deriving DecidableEq, Repr

/-- The state of a knex query builder as constructed by the program. -/
structure QueryBuilder where
  fromTable : String
  joins : List JoinClause
  wheres : List WhereEq
  selects : List SelectItem
  groupBys : List String
  aggregates : List Aggregate
  orders : List OrderClause
  limitVal : Option Nat
  isDistinct : Bool
deriving DecidableEq, Repr

/-- `knex('table')`: a fresh builder over the given table. -/
def knexFrom (table : String) : QueryBuilder :=
  ⟨table, [], [], [], [], [], [], none, false⟩

/-- `.join(table, onConds)` — inner join. -/
def QueryBuilder.join (q : QueryBuilder) (table : String)
    (onConds : List (String × String)) : QueryBuilder :=
  { q with joins := q.joins ++ [⟨JoinKind.inner, table, onConds⟩] }

/-- `.leftJoin(table, onConds)`. -/
def QueryBuilder.leftJoin (q : QueryBuilder) (table : String)
    (onConds : List (String × String)) : QueryBuilder :=
  { q with joins := q.joins ++ [⟨JoinKind.left, table, onConds⟩] }

/-- `.where(column, value)` — equality predicate.  (`where` is a Lean
keyword, hence the name `whereEq`.) -/
def QueryBuilder.whereEq (q : QueryBuilder) (column value : String) :
    QueryBuilder :=
  { q with wheres := q.wheres ++ [⟨column, value⟩] }

/-- `.select(columns)` with a list of plain column names. -/
def QueryBuilder.selectCols (q : QueryBuilder) (columns : List String) :
    QueryBuilder :=
  { q with selects := q.selects ++ columns.map SelectItem.col }

/-- `.select(knex.raw(sql))`. -/
def QueryBuilder.selectRaw (q : QueryBuilder) (sql : String) : QueryBuilder :=
  { q with selects := q.selects ++ [SelectItem.raw sql] }

/-- `.select('table.*')`. -/
def QueryBuilder.selectTableStar (q : QueryBuilder) (table : String) :
    QueryBuilder :=
  { q with selects := q.selects ++ [SelectItem.tableStar table] }

/-- `.groupBy(columns)`. -/
def QueryBuilder.groupBy (q : QueryBuilder) (columns : List String) :
    QueryBuilder :=
  { q with groupBys := q.groupBys ++ columns }

/-- `.sum('expr as name')`. -/
def QueryBuilder.sum (q : QueryBuilder) (expr asName : String) :
    QueryBuilder :=
  { q with aggregates := q.aggregates ++ [Aggregate.sumAs expr asName] }

/-- `.countDistinct('expr as name')`. -/
def QueryBuilder.countDistinct (q : QueryBuilder) (expr asName : String) :
    QueryBuilder :=
  { q with aggregates := q.aggregates ++ [Aggregate.countDistinctAs expr asName] }

/-- `.orderBy(column, direction)`. -/
def QueryBuilder.orderBy (q : QueryBuilder) (column direction : String) :
    QueryBuilder :=
  { q with orders := q.orders ++ [⟨column, direction⟩] }

/-- `.orderBy(column)` with no direction argument: knex emits `asc`. -/
def QueryBuilder.orderByAsc (q : QueryBuilder) (column : String) :
    QueryBuilder :=
  q.orderBy column "asc"

/-- `.limit(n)`. -/
def QueryBuilder.limit (q : QueryBuilder) (n : Nat) : QueryBuilder :=
  { q with limitVal := some n }

/-- `.distinct()`. -/
def QueryBuilder.distinct (q : QueryBuilder) : QueryBuilder :=
  { q with isDistinct := true }

/-- JavaScript truthiness of a string: the empty string is falsy,
every other string is truthy. -/
def truthy (s : String) : Bool := s ≠ ""

/-- The filter object built by `filterObj()` in the source: the four
string-valued filter state cells; the empty string means unset. -/
structure Filter where
  agency : String
  title : String
  part : String
  «section» : String
deriving DecidableEq, Repr

/-- The list `granularities` from the source
(`["title", "chapter", "part", "section", "agency"]`); these are exactly
the cases of `theQuery`'s granularity switch. -/
def granularities : List String :=
  ["title", "chapter", "part", "section", "agency"]

/-- The sort keys handled by `theQuery`'s sortKey switch. -/
def sortKeys : List String := ["num_words", "num_cases", "case_word_ratio"]

/-- `nextGranularity(last_granularity)` from the source: a switch whose
default case is `return null`; the `throw` statement after the switch is
unreachable, so an unrecognized input yields `null` (`none`), never an
error. -/
def nextGranularity (last_granularity : String) : Option String :=
  match last_granularity with
  | "title" => some "chapter"
  | "chapter" => some "part"
  | "part" => some "section"
  | "agency" => some "part"
  | _ => none

/-- The `// apply filter` block, textually identical in `theQuery` and
`pdfsQuery`: an agency filter adds the single agency equality predicate
and skips the location fields entirely; otherwise the location fields are
added as nested equality predicates, each inner field only when all outer
ones are truthy. -/
def applyFilter (query : QueryBuilder) (filter : Filter) : QueryBuilder :=
  if truthy filter.agency then
    query.whereEq "cfr_agency.agency" filter.agency
  else
    if truthy filter.title then
      let query := query.whereEq "cfr_section.title" filter.title
      if truthy filter.part then
        let query := query.whereEq "cfr_section.part" filter.part
        if truthy filter.«section» then
          query.whereEq "cfr_section.section" filter.«section»
        else query
      else query
    else query

/-- The `// apply granularity` switch of `theQuery`: the `columns` list,
or the thrown `Unknown granularity` error in the default case. -/
def granularityColumns (granularity : String) : Except String (List String) :=
  match granularity with
  | "title" => Except.ok ["cfr_section.title"]
  | "chapter" => Except.ok ["cfr_section.title", "cfr_section.chapter"]
  | "part" =>
      Except.ok ["cfr_section.title", "cfr_section.chapter",
        "cfr_section.part"]
  | "section" =>
      Except.ok ["cfr_section.title", "cfr_section.chapter",
        "cfr_section.part", "cfr_section.section"]
  | "agency" => Except.ok ["cfr_agency.agency"]
  | _ => Except.error ("Unknown granularity " ++ granularity)

/-- The `// apply sort key` switch of `theQuery` (the comment in the
source notes the sort key also selects which aggregate to compute), or
the thrown `Unknown sort key` error in the default case. -/
def applySortKey (query : QueryBuilder) (sortKey : String) :
    Except String QueryBuilder :=
  match sortKey with
  | "num_cases" =>
      Except.ok ((query.countDistinct "court_opinion_pdf.package_id"
        "num_cases").orderBy "num_cases" "desc")
  | "num_words" =>
      Except.ok ((query.sum "cfr_section.num_words" "num_words").orderBy
        "num_words" "desc")
  | "case_word_ratio" =>
      Except.ok ((query.selectRaw
        "COUNT(DISTINCT court_opinion_pdf.package_id) / CAST(num_words as REAL) as case_word_ratio").orderBy
        "case_word_ratio" "desc")
  | _ => Except.error ("Unknown sort key " ++ sortKey)

/-- The initial builder chain of `theQuery`: the `cfr_section` base table,
the three unconditional left joins, and the limit — all applied before the
filter, exactly as in the source. -/
def theQueryBase (limit : Nat) : QueryBuilder :=
  knexFrom "cfr_section"
    |>.leftJoin "cfr_pdf"
      [("cfr_section.title", "cfr_pdf.title"),
       ("cfr_section.part", "cfr_pdf.part"),
       ("cfr_section.section", "cfr_pdf.section")]
    |>.leftJoin "court_opinion_pdf"
      [("cfr_pdf.granule_id", "court_opinion_pdf.granule_id")]
    |>.leftJoin "cfr_agency"
      [("cfr_section.title", "cfr_agency.title"),
       ("cfr_section.chapter", "cfr_agency.chapter")]
    |>.limit limit

/-- `theQuery(filter, granularity, sortKey, limit)` from the source: the
builder state passed to `.toString()`, or `Except.error` where the source
throws.  The construction order follows the source: base table with
joins and limit, then the filter predicates, then the granularity columns
(select + groupBy), then the sortKey aggregate and ordering. -/
def theQuery (filter : Filter) (granularity : String) (sortKey : String)
    (limit : Nat) : Except String QueryBuilder :=
  let query := applyFilter (theQueryBase limit) filter
  match granularityColumns granularity with
  | Except.error e => Except.error e
  | Except.ok columns =>
      applySortKey ((query.selectCols columns).groupBy columns) sortKey

/-- The initial builder chain of `pdfsQuery`, applied before the filter:
inner joins to `cfr_pdf` and `court_opinion_pdf`, the left join to
`cfr_agency`, select `court_opinion_pdf.*` distinct, order by issue date
(knex default ascending), and the limit. -/
def pdfsQueryBase (limit : Nat) : QueryBuilder :=
  knexFrom "cfr_section"
    |>.join "cfr_pdf"
      [("cfr_section.title", "cfr_pdf.title"),
       ("cfr_section.part", "cfr_pdf.part"),
       ("cfr_section.section", "cfr_pdf.section")]
    |>.join "court_opinion_pdf"
      [("cfr_pdf.granule_id", "court_opinion_pdf.granule_id")]
    |>.leftJoin "cfr_agency"
      [("cfr_section.title", "cfr_agency.title"),
       ("cfr_section.chapter", "cfr_agency.chapter")]
    |>.selectTableStar "court_opinion_pdf"
    |>.distinct
    |>.orderByAsc "court_opinion_pdf.date_opinion_issued"
    |>.limit limit

/-- `pdfsQuery(filter, limit)` from the source: the base chain above,
then the same `// apply filter` block as `theQuery`. -/
def pdfsQuery (filter : Filter) (limit : Nat) : QueryBuilder :=
  applyFilter (pdfsQueryBase limit) filter

/-- The four van.state filter cells (`agencyFilter`, `titleFilter`,
`partFilter`, `sectionFilter`), all initialized to the empty string. -/
structure FilterState where
  agencyFilter : String
  titleFilter : String
  partFilter : String
  sectionFilter : String
deriving DecidableEq, Repr

/-- `clearFilter()` from `selectorsDisplay`: sets all four cells to `''`.
Wired to the "Clear All Filters" link. -/
def clearFilter (_ : FilterState) : FilterState := ⟨"", "", "", ""⟩

/-- `clearAgencyFilter()` from `selectorsDisplay`: sets only the agency
cell to `''`.  Defined in the source but never invoked by any handler. -/
def clearAgencyFilter (s : FilterState) : FilterState :=
  { s with agencyFilter := "" }

/-- `clearSectionFilter()` from `selectorsDisplay`: sets the three
location cells to `''`.  Defined in the source but never invoked by any
handler. -/
def clearSectionFilter (s : FilterState) : FilterState :=
  { s with titleFilter := "", partFilter := "", sectionFilter := "" }

/-- The `oninput` handler of the title input:
`ev => titleFilter.val = ev.target.value`.  It only writes the title
cell; no other cell is touched. -/
def titleInput (s : FilterState) (v : String) : FilterState :=
  { s with titleFilter := v }

/-- The `oninput` handler of the part input:
`ev => partFilter = ev.target.value` — it assigns the captured local
variable, not `partFilter.val`, so the reactive state is unchanged. -/
def partInput (s : FilterState) (_ : String) : FilterState := s

/-- The `oninput` handler of the section input:
`ev => sectionFilter = ev.target.value` — like the part input it
rebinds the local variable, leaving the state unchanged. -/
def sectionInput (s : FilterState) (_ : String) : FilterState := s

/-- A result row as consumed by the presentation functions.  Fields are
optional: the SQL engine delivers NULL (JavaScript `null`) for an absent
aggregate or for a division by zero.  Ratios are modelled as exact
rationals; all values this development evaluates the formatting at are
exactly representable, so no floating-point rounding intervenes. -/
structure QueryRow where
  num_words : Option Int
  num_cases : Option Int
  case_word_ratio : Option Rat
deriving DecidableEq, Repr

/-- JavaScript `x || 0` on a number-or-null value: `null` and `0` are
falsy and give `0`; every other number gives itself. -/
def jsOrZero (x : Option Rat) : Rat :=
  match x with
  | none => 0
  | some v => if v = 0 then 0 else v

/-- JavaScript `${x}` string interpolation of a number-or-null value. -/
def jsShowOptInt (x : Option Int) : String :=
  match x with
  | none => "null"
  | some n => toString n

/-- JavaScript `Number.prototype.toFixed(2)` on a nonnegative value:
round to two decimals, half away from zero, and print with exactly two
fraction digits. -/
def toFixed2 (x : Rat) : String :=
  let scaled : Int := Rat.floor (x * 100 + 1 / 2)
  let whole : Int := scaled / 100
  let frac : Int := scaled % 100
  toString whole ++ "." ++ (if frac < 10 then "0" else "") ++ toString frac

/-- `machineReadableValue(queryRes, sortKey)` from the source: the raw
field for the sort key, or a thrown error for an unrecognized key. -/
def machineReadableValue (queryRes : QueryRow) (sortKey : String) :
    Except String (Option Rat) :=
  match sortKey with
  | "num_words" => pure (queryRes.num_words.map (fun n => (n : Rat)))
  | "num_cases" => pure (queryRes.num_cases.map (fun n => (n : Rat)))
  | "case_word_ratio" => pure queryRes.case_word_ratio
  | _ => Except.error ("Unrecognized sort key: " ++ sortKey)

/-- `humanReadableValue(queryRes, sortKey)` from the source; for
`case_word_ratio` it renders
`((queryRes.case_word_ratio || 0)*1000).toFixed(2)`. -/
def humanReadableValue (queryRes : QueryRow) (sortKey : String) :
    Except String String :=
  match sortKey with
  | "num_words" => pure (jsShowOptInt queryRes.num_words ++ " Words")
  | "num_cases" => pure (jsShowOptInt queryRes.num_cases ++ " Cases")
  | "case_word_ratio" =>
      pure (toFixed2 (jsOrZero queryRes.case_word_ratio * 1000))
  | _ => Except.error ("Unrecognized sort key: " ++ sortKey)

/-- `humanReadableKey(queryRes, granularity)` from the source: display
label for a row's grouping key. -/
def humanReadableKey (title chapter part sect agency : String)
    (granularity : String) : Except String String :=
  match granularity with
  | "title" => pure ("CFR " ++ title)
  | "chapter" => pure ("CFR " ++ title ++ " Ch. " ++ chapter)
  | "part" => pure (title ++ " CFR " ++ part)
  | "section" => pure (title ++ " CFR § " ++ part ++ "." ++ sect)
  | "agency" => pure agency
  | _ => Except.error ("Unrecognized granularity: " ++ granularity)

/-- The external SQLite engine's value for the `case_word_ratio` raw
expression `COUNT(DISTINCT court_opinion_pdf.package_id) / CAST(num_words
as REAL)`: SQLite division by zero yields NULL, and an absent/NULL
`num_words` makes the cast and hence the quotient NULL.  (The engine is
the external sqlite-wasm collaborator, not repository code; this models
its documented arithmetic.) -/
def engineRatio (num_cases : Int) (num_words : Option Int) : Option Rat :=
  match num_words with
  | none => none
  | some w => if w = 0 then none else some ((num_cases : Rat) / (w : Rat))

/-- Does the builder contain a join clause to the given table? -/
def hasJoinTo (q : QueryBuilder) (table : String) : Bool :=
  q.joins.any (fun j => j.table == table)

/-- The filter with all four fields unset (the startup state). -/
def emptyFilter : Filter := ⟨"", "", "", ""⟩

/-- The plain-column items of the select list, in order. -/
def plainSelectCols (q : QueryBuilder) : List String :=
  q.selects.filterMap (fun item =>
    match item with
    | SelectItem.col c => some c
    | _ => none)

/-- The location column chain of the spec's data model, coarse to fine:
(title, chapter, part, section), qualified with the Section relation's
table name. -/
def specLocationChain : List String :=
  ["cfr_section.title", "cfr_section.chapter", "cfr_section.part",
   "cfr_section.section"]

/-- Spec-side definition (for the refinement claim about grouping
columns), following the spec's words: the grouping column set is "a
strictly nested prefix of (title, chapter, part, section) for location
granularities, or `{agency}` for agency granularity"; each location
granularity takes the prefix of the chain down to its own level. -/
def specGroupingColumns (granularity : String) : Option (List String) :=
  match granularity with
  | "title" => some (specLocationChain.take 1)
  | "chapter" => some (specLocationChain.take 2)
  | "part" => some (specLocationChain.take 3)
  | "section" => some (specLocationChain.take 4)
  | "agency" => some ["cfr_agency.agency"]
  | _ => none

/-! Helper lemmas about the builder operations.  Each knex operation is a
record update, so most field projections reduce definitionally; the
lemmas below package the facts the claim theorems share. -/

/-- `applyFilter` only appends `where` predicates: every other builder
field is untouched. -/
theorem applyFilter_spec (q : QueryBuilder) (f : Filter) :
    ∃ ws, applyFilter q f = { q with wheres := q.wheres ++ ws } := by
  unfold applyFilter
  split
  · exact ⟨[⟨"cfr_agency.agency", f.agency⟩], rfl⟩
  · split
    · split
      · split
        · exact ⟨[⟨"cfr_section.title", f.title⟩, ⟨"cfr_section.part", f.part⟩,
            ⟨"cfr_section.section", f.«section»⟩],
            by simp [QueryBuilder.whereEq]⟩
        · exact ⟨[⟨"cfr_section.title", f.title⟩, ⟨"cfr_section.part", f.part⟩],
            by simp [QueryBuilder.whereEq]⟩
      · exact ⟨[⟨"cfr_section.title", f.title⟩], rfl⟩
    · exact ⟨[], by simp⟩

theorem applyFilter_joins (q : QueryBuilder) (f : Filter) :
    (applyFilter q f).joins = q.joins := by
  obtain ⟨ws, hw⟩ := applyFilter_spec q f
  rw [hw]

theorem applyFilter_selects (q : QueryBuilder) (f : Filter) :
    (applyFilter q f).selects = q.selects := by
  obtain ⟨ws, hw⟩ := applyFilter_spec q f
  rw [hw]

theorem applyFilter_groupBys (q : QueryBuilder) (f : Filter) :
    (applyFilter q f).groupBys = q.groupBys := by
  obtain ⟨ws, hw⟩ := applyFilter_spec q f
  rw [hw]

theorem applyFilter_aggregates (q : QueryBuilder) (f : Filter) :
    (applyFilter q f).aggregates = q.aggregates := by
  obtain ⟨ws, hw⟩ := applyFilter_spec q f
  rw [hw]

theorem applyFilter_orders (q : QueryBuilder) (f : Filter) :
    (applyFilter q f).orders = q.orders := by
  obtain ⟨ws, hw⟩ := applyFilter_spec q f
  rw [hw]

theorem applyFilter_limitVal (q : QueryBuilder) (f : Filter) :
    (applyFilter q f).limitVal = q.limitVal := by
  obtain ⟨ws, hw⟩ := applyFilter_spec q f
  rw [hw]

theorem applyFilter_isDistinct (q : QueryBuilder) (f : Filter) :
    (applyFilter q f).isDistinct = q.isDistinct := by
  obtain ⟨ws, hw⟩ := applyFilter_spec q f
  rw [hw]

/-- When the agency field is truthy, `applyFilter` adds exactly the one
agency predicate: the location branch is never entered. -/
theorem applyFilter_of_agency (q : QueryBuilder) (f : Filter)
    (h : truthy f.agency = true) :
    applyFilter q f = q.whereEq "cfr_agency.agency" f.agency := by
  simp [applyFilter, h]

/-- Outside the five supported granularities, the granularity switch
reaches its default case and throws. -/
theorem granularityColumns_of_not_mem (g : String) (h : g ∉ granularities) :
    granularityColumns g = Except.error ("Unknown granularity " ++ g) := by
  unfold granularityColumns
  split <;> first | rfl | exact absurd (by decide) h

/-- Outside the three supported sort keys, the sortKey switch reaches its
default case and throws. -/
theorem applySortKey_of_not_mem (q : QueryBuilder) (s : String)
    (h : s ∉ sortKeys) :
    applySortKey q s = Except.error ("Unknown sort key " ++ s) := by
  unfold applySortKey
  split <;> first | rfl | exact absurd (by decide) h

/-- A successful sortKey application preserves the joins, the predicates,
the grouping columns, the plain select columns and the limit of the query
it decorates. -/
theorem applySortKey_ok (q : QueryBuilder) (s : String) (q' : QueryBuilder)
    (h : applySortKey q s = Except.ok q') :
    q'.joins = q.joins ∧ q'.wheres = q.wheres ∧ q'.groupBys = q.groupBys ∧
      plainSelectCols q' = plainSelectCols q ∧ q'.limitVal = q.limitVal := by
  unfold applySortKey at h
  split at h <;>
    first
      | exact Except.noConfusion h
      | (injection h with h
         subst h
         refine ⟨rfl, rfl, rfl, ?_, rfl⟩
         simp [plainSelectCols, QueryBuilder.selectRaw, QueryBuilder.sum,
           QueryBuilder.countDistinct, QueryBuilder.orderBy])

/-- The select items added by `selectCols` are recovered unchanged by
`plainSelectCols`. -/
theorem filterMapCol (cols : List String) :
    List.filterMap (fun item =>
      match item with
      | SelectItem.col c => some c
      | _ => none) (cols.map SelectItem.col) = cols := by
  induction cols with
  | nil => rfl
  | cons x xs ih => simp [List.filterMap_cons, ih]

/-- Workhorse: when `theQuery` succeeds, its grouping columns and plain
select columns are exactly the columns of the granularity switch, its
joins are the three unconditional base joins, its limit is the given
limit, and its predicates are those of the filter block. -/
theorem theQuery_ok_fields (f : Filter) (g s : String) (l : Nat)
    (q : QueryBuilder) (cols : List String)
    (h : theQuery f g s l = Except.ok q)
    (hcols : granularityColumns g = Except.ok cols) :
    q.groupBys = cols ∧ plainSelectCols q = cols ∧
      q.joins = (theQueryBase l).joins ∧ q.limitVal = some l ∧
      q.wheres = (applyFilter (theQueryBase l) f).wheres := by
  unfold theQuery at h
  split at h
  next e he => exact Except.noConfusion h
  next cols' hcols' =>
    rw [hcols'] at hcols
    injection hcols with hcols
    subst cols'
    obtain ⟨hj, hw, hgb, hsel, hl⟩ := applySortKey_ok _ s q h
    refine ⟨?_, ?_, ?_, ?_, ?_⟩
    · rw [hgb]
      show (applyFilter (theQueryBase l) f).groupBys ++ cols = cols
      rw [applyFilter_groupBys]
      rfl
    · rw [hsel]
      show plainSelectCols ((applyFilter (theQueryBase l) f).selectCols cols)
        = cols
      simp only [plainSelectCols, QueryBuilder.selectCols,
        List.filterMap_append, filterMapCol]
      rw [show (applyFilter (theQueryBase l) f).selects = [] from
        applyFilter_selects _ _]
      rfl
    · rw [hj]
      show (applyFilter (theQueryBase l) f).joins = (theQueryBase l).joins
      exact applyFilter_joins _ _
    · rw [hl]
      show (applyFilter (theQueryBase l) f).limitVal = (theQueryBase l).limitVal
      exact applyFilter_limitVal _ _
    · rw [hw]
      rfl

/-- The sortKey switch at `num_cases`, as an equation. -/
theorem applySortKey_num_cases (q : QueryBuilder) :
    applySortKey q "num_cases" = Except.ok
      ((q.countDistinct "court_opinion_pdf.package_id" "num_cases").orderBy
        "num_cases" "desc") := rfl

/-- The sortKey switch at `num_words`, as an equation. -/
theorem applySortKey_num_words (q : QueryBuilder) :
    applySortKey q "num_words" = Except.ok
      ((q.sum "cfr_section.num_words" "num_words").orderBy
        "num_words" "desc") := rfl

/-- The sortKey switch at `case_word_ratio`, as an equation. -/
theorem applySortKey_ratio (q : QueryBuilder) :
    applySortKey q "case_word_ratio" = Except.ok
      ((q.selectRaw
        "COUNT(DISTINCT court_opinion_pdf.package_id) / CAST(num_words as REAL) as case_word_ratio").orderBy
        "case_word_ratio" "desc") := rfl

/-- The three left joins every aggregate query carries. -/
def leftBaseJoins : List JoinClause :=
  [⟨JoinKind.left, "cfr_pdf",
    [("cfr_section.title", "cfr_pdf.title"),
     ("cfr_section.part", "cfr_pdf.part"),
     ("cfr_section.section", "cfr_pdf.section")]⟩,
   ⟨JoinKind.left, "court_opinion_pdf",
    [("cfr_pdf.granule_id", "court_opinion_pdf.granule_id")]⟩,
   ⟨JoinKind.left, "cfr_agency",
    [("cfr_section.title", "cfr_agency.title"),
     ("cfr_section.chapter", "cfr_agency.chapter")]⟩]

/-- The join clauses of the case-list query: inner joins through the
document path, left join to Agency. -/
def pdfsJoins : List JoinClause :=
  [⟨JoinKind.inner, "cfr_pdf",
    [("cfr_section.title", "cfr_pdf.title"),
     ("cfr_section.part", "cfr_pdf.part"),
     ("cfr_section.section", "cfr_pdf.section")]⟩,
   ⟨JoinKind.inner, "court_opinion_pdf",
    [("cfr_pdf.granule_id", "court_opinion_pdf.granule_id")]⟩,
   ⟨JoinKind.left, "cfr_agency",
    [("cfr_section.title", "cfr_agency.title"),
     ("cfr_section.chapter", "cfr_agency.chapter")]⟩]

/-- C1 counterexample: with the empty filter (not an agency filter) and
granularity `title` (not agency), the aggregate query nevertheless
contains a join to `cfr_agency` — refuting the claimed "only if"
direction of the conditional Agency join. -/
theorem c1_counterexample :
    (theQuery emptyFilter "title" "num_words" 100).toOption.map
        (fun q => hasJoinTo q "cfr_agency") = some true ∧
      truthy emptyFilter.agency = false ∧ ("title" : String) ≠ "agency" :=
  ⟨rfl, by decide, by decide⟩

/-- C1 (amended): whenever `theQuery` succeeds, the produced query joins
`cfr_agency` — the Agency join is applied unconditionally, for every
filter and granularity, not only when the filter or granularity needs
agency data. -/
theorem c1_agency_join_unconditional (f : Filter) (g s : String) (l : Nat)
    (q : QueryBuilder) (h : theQuery f g s l = Except.ok q) :
    hasJoinTo q "cfr_agency" = true := by
  unfold theQuery at h
  split at h
  next e he => exact Except.noConfusion h
  next cols hcols =>
    obtain ⟨hj, -, -, -, -⟩ := applySortKey_ok _ s q h
    unfold hasJoinTo
    rw [hj]
    show (((applyFilter (theQueryBase l) f).joins).any
      (fun j => j.table == "cfr_agency")) = true
    rw [applyFilter_joins]
    rfl

/-- The builder produced at the C1 witness input. -/
def c1WitnessQuery : QueryBuilder :=
  ⟨"cfr_section", leftBaseJoins, [],
   [SelectItem.col "cfr_section.title", SelectItem.col "cfr_section.chapter",
    SelectItem.col "cfr_section.part"],
   ["cfr_section.title", "cfr_section.chapter", "cfr_section.part"],
   [Aggregate.countDistinctAs "court_opinion_pdf.package_id" "num_cases"],
   [⟨"num_cases", "desc"⟩], some 50, false⟩

/-- C1 witness: the amended theorem applied at a concrete input. -/
theorem c1_agency_join_unconditional_witness :
    theQuery emptyFilter "part" "num_cases" 50 = Except.ok c1WitnessQuery ∧
      hasJoinTo c1WitnessQuery "cfr_agency" = true :=
  ⟨rfl, c1_agency_join_unconditional emptyFilter "part" "num_cases" 50
    c1WitnessQuery rfl⟩

/-- C2 counterexample: at the empty filter, granularity `title`,
sortKey `case_word_ratio`, the produced query has NO aggregate sub-queries
at all — its joins are only the three base relations (no join of two
sub-results), its select list is the single grouping column plus one
inline raw ratio expression in which only the denominator `num_words` is
cast to REAL — refuting the claimed two independent sub-aggregations
joined on the grouping columns with both operands cast. -/
theorem c2_counterexample :
    (theQuery emptyFilter "title" "case_word_ratio" 100).toOption.map
      (fun q => (q.selects, q.aggregates, q.joins.map JoinClause.table)) =
    some ([SelectItem.col "cfr_section.title",
           SelectItem.raw
             "COUNT(DISTINCT court_opinion_pdf.package_id) / CAST(num_words as REAL) as case_word_ratio"],
          [], ["cfr_pdf", "court_opinion_pdf", "cfr_agency"]) := rfl

/-- C2 (amended): for sortKey `case_word_ratio`, `theQuery` builds a
single-level aggregate query: the ratio is the one inline raw select
expression dividing `COUNT(DISTINCT court_opinion_pdf.package_id)` by
`CAST(num_words as REAL)` (num_cases over num_words, only the denominator
cast to floating point), with no sub-aggregations (the aggregate list is
empty) and ordering by the ratio descending. -/
theorem c2_ratio_inline (f : Filter) (g : String) (l : Nat)
    (q : QueryBuilder)
    (h : theQuery f g "case_word_ratio" l = Except.ok q) :
    q.selects.getLast? = some (SelectItem.raw
        "COUNT(DISTINCT court_opinion_pdf.package_id) / CAST(num_words as REAL) as case_word_ratio") ∧
      q.aggregates = [] ∧ q.orders = [⟨"case_word_ratio", "desc"⟩] := by
  unfold theQuery at h
  split at h
  next e he => exact Except.noConfusion h
  next cols hcols =>
    rw [applySortKey_ratio] at h
    injection h with h
    subst q
    refine ⟨?_, ?_, ?_⟩
    · show ((((applyFilter (theQueryBase l) f).selectCols cols).groupBy
        cols).selects ++ [SelectItem.raw
          "COUNT(DISTINCT court_opinion_pdf.package_id) / CAST(num_words as REAL) as case_word_ratio"]).getLast?
        = _
      rw [List.getLast?_concat]
    · show (applyFilter (theQueryBase l) f).aggregates = []
      rw [applyFilter_aggregates]
      rfl
    · show (applyFilter (theQueryBase l) f).orders ++
        [⟨"case_word_ratio", "desc"⟩] = [⟨"case_word_ratio", "desc"⟩]
      rw [applyFilter_orders]
      rfl

/-- The builder produced at the C2 witness input. -/
def c2WitnessQuery : QueryBuilder :=
  ⟨"cfr_section", leftBaseJoins, [⟨"cfr_section.title", "40"⟩],
   [SelectItem.col "cfr_section.title", SelectItem.col "cfr_section.chapter",
    SelectItem.raw
      "COUNT(DISTINCT court_opinion_pdf.package_id) / CAST(num_words as REAL) as case_word_ratio"],
   ["cfr_section.title", "cfr_section.chapter"],
   [], [⟨"case_word_ratio", "desc"⟩], some 10, false⟩

/-- C2 witness: the amended theorem applied at a concrete input. -/
theorem c2_ratio_inline_witness :
    c2WitnessQuery.selects.getLast? = some (SelectItem.raw
        "COUNT(DISTINCT court_opinion_pdf.package_id) / CAST(num_words as REAL) as case_word_ratio") ∧
      c2WitnessQuery.aggregates = [] ∧
      c2WitnessQuery.orders = [⟨"case_word_ratio", "desc"⟩] :=
  c2_ratio_inline ⟨"", "40", "", ""⟩ "chapter" 10 c2WitnessQuery rfl

/-- C3 (confirmed): for every supported granularity, the grouping
columns of a successful aggregate query are exactly the spec's nested
prefix (or the agency column), the plain select columns coincide with
them, and they contain the Agency column only when the granularity is
agency. -/
theorem c3_grouping_columns (f : Filter) (g s : String) (l : Nat)
    (q : QueryBuilder) (hg : g ∈ granularities)
    (h : theQuery f g s l = Except.ok q) :
    specGroupingColumns g = some q.groupBys ∧
      plainSelectCols q = q.groupBys ∧
      ("cfr_agency.agency" ∈ q.groupBys →
        truthy f.agency = true ∨ g = "agency") := by
  simp only [granularities, List.mem_cons, List.not_mem_nil, or_false] at hg
  rcases hg with rfl | rfl | rfl | rfl | rfl <;>
    (obtain ⟨hgb, hsel, -, -, -⟩ := theQuery_ok_fields f _ s l q _ h rfl
     refine ⟨?_, ?_, ?_⟩
     · simp [hgb, specGroupingColumns, specLocationChain]
     · rw [hsel, hgb]
     · rw [hgb]
       first
         | exact fun _ => Or.inr rfl
         | exact fun hmem => absurd hmem (by decide))

/-- The builder produced at the C3 witness input. -/
def c3WitnessQuery : QueryBuilder :=
  ⟨"cfr_section", leftBaseJoins, [],
   [SelectItem.col "cfr_section.title", SelectItem.col "cfr_section.chapter",
    SelectItem.col "cfr_section.part", SelectItem.col "cfr_section.section"],
   ["cfr_section.title", "cfr_section.chapter", "cfr_section.part",
    "cfr_section.section"],
   [Aggregate.sumAs "cfr_section.num_words" "num_words"],
   [⟨"num_words", "desc"⟩], some 5, false⟩

/-- C3 witness: the theorem applied at a concrete input. -/
theorem c3_grouping_columns_witness :
    specGroupingColumns "section" = some c3WitnessQuery.groupBys ∧
      plainSelectCols c3WitnessQuery = c3WitnessQuery.groupBys ∧
      ("cfr_agency.agency" ∈ c3WitnessQuery.groupBys →
        truthy emptyFilter.agency = true ∨ ("section" : String) = "agency") :=
  c3_grouping_columns emptyFilter "section" "num_words" 5 c3WitnessQuery
    (by decide) rfl

/-- C4: the claimed filter cascade does not exist in the code — at the
failing input (agency cell holding "FAA", user typing "40" into the title
input) the title handler writes only the title cell and the agency cell
still reads "FAA", while the claim requires it to read empty.  The
clearing functions (`clearAgencyFilter`, `clearSectionFilter`) are
defined in `selectorsDisplay` but never wired to any input, and no
handler sets the agency cell at all. -/
theorem c4_location_set_keeps_agency :
    (titleInput ⟨"FAA", "", "", ""⟩ "40").agencyFilter = "FAA" ∧
      (titleInput ⟨"FAA", "", "", ""⟩ "40").titleFilter = "40" ∧
      clearAgencyFilter (titleInput ⟨"FAA", "", "", ""⟩ "40") =
        ⟨"", "40", "", ""⟩ := by
  refine ⟨rfl, rfl, rfl⟩

/-- C5 counterexample: the case-list query orders by
`court_opinion_pdf.date_opinion_issued` with knex's default direction
`asc` (oldest first), not `desc` — refuting "most recent first". -/
theorem c5_counterexample :
    (pdfsQuery emptyFilter 100).orders =
        [⟨"court_opinion_pdf.date_opinion_issued", "asc"⟩] ∧
      (pdfsQuery emptyFilter 100).orders ≠
        [⟨"court_opinion_pdf.date_opinion_issued", "desc"⟩] :=
  ⟨rfl, by decide⟩

/-- C5 (amended): for every filter and limit, `pdfsQuery` inner-joins
Section → SectionPdfLink → CourtOpinion with a left-joined Agency, selects
only distinct `court_opinion_pdf.*` rows, orders by issue date ascending
(oldest first — not most recent first), and caps to the limit. -/
theorem c5_pdfs_query_shape (f : Filter) (l : Nat) :
    (pdfsQuery f l).joins = pdfsJoins ∧
      (pdfsQuery f l).selects = [SelectItem.tableStar "court_opinion_pdf"] ∧
      (pdfsQuery f l).isDistinct = true ∧
      (pdfsQuery f l).orders =
        [⟨"court_opinion_pdf.date_opinion_issued", "asc"⟩] ∧
      (pdfsQuery f l).limitVal = some l ∧
      (pdfsQuery f l).groupBys = [] ∧ (pdfsQuery f l).aggregates = [] := by
  unfold pdfsQuery
  refine ⟨?_, ?_, ?_, ?_, ?_, ?_, ?_⟩
  · rw [applyFilter_joins]; rfl
  · rw [applyFilter_selects]; rfl
  · rw [applyFilter_isDistinct]; rfl
  · rw [applyFilter_orders]; rfl
  · rw [applyFilter_limitVal]; rfl
  · rw [applyFilter_groupBys]; rfl
  · rw [applyFilter_aggregates]; rfl

/-- C6 counterexample: `nextGranularity "title"` is `"chapter"`, not
`"part"` as the claimed progression requires, and at the terminal
granularity `"section"` the function returns the value `null` (`none`)
instead of signalling an error (the `throw` after the switch is
unreachable). -/
theorem c6_counterexample :
    nextGranularity "title" ≠ some "part" ∧
      nextGranularity "title" = some "chapter" ∧
      nextGranularity "section" = none :=
  ⟨by decide, rfl, rfl⟩

/-- C6 (amended): `nextGranularity` follows the fixed forward progression
title → chapter → part → section with agency → part, and for section or
any unrecognized input it returns `null` (`none`) — it never signals an
error. -/
theorem c6_next_granularity_progression (g : String) :
    nextGranularity g =
      if g = "title" then some "chapter"
      else if g = "chapter" then some "part"
      else if g = "part" then some "section"
      else if g = "agency" then some "part"
      else none := by
  unfold nextGranularity
  split <;> simp_all

/-- C7 counterexample: with sortKey `num_words` the aggregate query still
joins `cfr_pdf` (SectionPdfLink) and `court_opinion_pdf` (CourtOpinion) —
refuting the claim that it contains no joins to the opinion-document
relations. -/
theorem c7_counterexample :
    (theQuery emptyFilter "title" "num_words" 100).toOption.map
      (fun q => (hasJoinTo q "cfr_pdf", hasJoinTo q "court_opinion_pdf")) =
    some (true, true) := rfl

/-- C7 (amended): for sortKey `num_words` the metric is
`SUM(cfr_section.num_words)` ordered descending, but the query joins the
full document path unconditionally: `cfr_pdf`, `court_opinion_pdf` and
`cfr_agency` are all (left-)joined regardless of filter and granularity. -/
theorem c7_num_words_metric (f : Filter) (g : String) (l : Nat)
    (q : QueryBuilder)
    (h : theQuery f g "num_words" l = Except.ok q) :
    q.aggregates = [Aggregate.sumAs "cfr_section.num_words" "num_words"] ∧
      q.joins.map JoinClause.table =
        ["cfr_pdf", "court_opinion_pdf", "cfr_agency"] ∧
      q.orders = [⟨"num_words", "desc"⟩] := by
  unfold theQuery at h
  split at h
  next e he => exact Except.noConfusion h
  next cols hcols =>
    rw [applySortKey_num_words] at h
    injection h with h
    subst q
    refine ⟨?_, ?_, ?_⟩
    · show (applyFilter (theQueryBase l) f).aggregates ++
        [Aggregate.sumAs "cfr_section.num_words" "num_words"] = _
      rw [applyFilter_aggregates]
      rfl
    · show ((applyFilter (theQueryBase l) f).joins).map JoinClause.table = _
      rw [applyFilter_joins]
      rfl
    · show (applyFilter (theQueryBase l) f).orders ++
        [⟨"num_words", "desc"⟩] = [⟨"num_words", "desc"⟩]
      rw [applyFilter_orders]
      rfl

/-- The builder produced at the C7 witness input. -/
def c7WitnessQuery : QueryBuilder :=
  ⟨"cfr_section", leftBaseJoins, [⟨"cfr_agency.agency", "FAA"⟩],
   [SelectItem.col "cfr_agency.agency"], ["cfr_agency.agency"],
   [Aggregate.sumAs "cfr_section.num_words" "num_words"],
   [⟨"num_words", "desc"⟩], some 7, false⟩

/-- C7 witness: the amended theorem applied at a concrete input. -/
theorem c7_num_words_metric_witness :
    c7WitnessQuery.aggregates =
        [Aggregate.sumAs "cfr_section.num_words" "num_words"] ∧
      c7WitnessQuery.joins.map JoinClause.table =
        ["cfr_pdf", "court_opinion_pdf", "cfr_agency"] ∧
      c7WitnessQuery.orders = [⟨"num_words", "desc"⟩] :=
  c7_num_words_metric ⟨"FAA", "", "", ""⟩ "agency" 7 c7WitnessQuery rfl

/-- C8 (confirmed): with a granularity outside the supported set or a
sortKey outside `{num_words, num_cases, case_word_ratio}`, `theQuery`
throws a configuration error synchronously — the pure builder returns
`Except.error` and no query text is ever produced to dispatch, with no
silent fallback to a default. -/
theorem c8_unknown_config_fails (f : Filter) (g s : String) (l : Nat)
    (h : g ∉ granularities ∨ s ∉ sortKeys) :
    ∃ msg, theQuery f g s l = Except.error msg := by
  unfold theQuery
  rcases h with hg | hs
  · rw [granularityColumns_of_not_mem g hg]
    exact ⟨"Unknown granularity " ++ g, rfl⟩
  · cases hgc : granularityColumns g with
    | error e => exact ⟨e, rfl⟩
    | ok cols =>
        exact ⟨"Unknown sort key " ++ s, applySortKey_of_not_mem _ s hs⟩

/-- C8 witness: the theorem applied at a concrete unsupported
granularity. -/
theorem c8_unknown_config_fails_witness :
    (("subpart" : String) ∉ granularities ∨
        ("num_words" : String) ∉ sortKeys) ∧
      ∃ msg, theQuery emptyFilter "subpart" "num_words" 1 =
        Except.error msg :=
  ⟨Or.inl (by decide),
   c8_unknown_config_fails emptyFilter "subpart" "num_words" 1
     (Or.inl (by decide))⟩

/-- The formatted two-decimal rendering of zero. -/
theorem toFixed2_zero : toFixed2 0 = "0.00" := by
  unfold toFixed2
  rw [show Rat.floor ((0 : Rat) * 100 + 1 / 2) = 0 from by
    norm_num [Rat.floor]]
  rfl

/-- C9 (confirmed): a `case_word_ratio` result row whose group has
`num_words` zero or absent carries a NULL ratio from the engine (SQLite
division by zero), and the human-readable formatting coalesces the null
ratio to 0 before multiplying by 1000 and rendering with two decimals:
the caller sees "0.00", not an error and not NaN. -/
theorem c9_zero_words_ratio_zero (num_cases : Int) (num_words : Option Int)
    (h : num_words = some 0 ∨ num_words = none) :
    humanReadableValue
      ⟨num_words, some num_cases, engineRatio num_cases num_words⟩
      "case_word_ratio" = Except.ok "0.00" := by
  have hr : engineRatio num_cases num_words = none := by
    rcases h with rfl | rfl
    · simp [engineRatio]
    · rfl
  show Except.ok (toFixed2 (jsOrZero (engineRatio num_cases num_words)
    * 1000)) = Except.ok "0.00"
  rw [hr]
  rw [show jsOrZero none * 1000 = 0 from by norm_num [jsOrZero]]
  rw [toFixed2_zero]

/-- C9 witness: the theorem applied at a concrete input. -/
theorem c9_zero_words_ratio_zero_witness :
    ((some 0 : Option Int) = some 0 ∨ (some 0 : Option Int) = none) ∧
      humanReadableValue ⟨some 0, some 5, engineRatio 5 (some 0)⟩
        "case_word_ratio" = Except.ok "0.00" :=
  ⟨Or.inl rfl, c9_zero_words_ratio_zero 5 (some 0) (Or.inl rfl)⟩

/-- C10 (confirmed): when the agency field and at least one location
field are simultaneously non-empty, both `theQuery` and `pdfsQuery` emit
only the single agency equality predicate — the location fields are
ignored entirely. -/
theorem c10_agency_precedence (f : Filter) (g s : String) (l : Nat)
    (ha : truthy f.agency = true)
    (_hloc : truthy f.title = true ∨ truthy f.part = true ∨
      truthy f.«section» = true) :
    (∀ q, theQuery f g s l = Except.ok q →
        q.wheres = [⟨"cfr_agency.agency", f.agency⟩]) ∧
      (pdfsQuery f l).wheres = [⟨"cfr_agency.agency", f.agency⟩] := by
  constructor
  · intro q h
    cases hgc : granularityColumns g with
    | error e =>
        unfold theQuery at h
        rw [hgc] at h
        exact Except.noConfusion h
    | ok cols =>
        obtain ⟨-, -, -, -, hw⟩ := theQuery_ok_fields f g s l q cols h hgc
        rw [hw, applyFilter_of_agency _ _ ha]
        rfl
  · unfold pdfsQuery
    rw [applyFilter_of_agency _ _ ha]
    rfl

/-- C10 witness: the theorem applied at a concrete input with both the
agency field and the title field populated. -/
theorem c10_agency_precedence_witness :
    truthy (Filter.mk "FAA" "40" "" "").agency = true ∧
      (pdfsQuery ⟨"FAA", "40", "", ""⟩ 5).wheres =
        [⟨"cfr_agency.agency", "FAA"⟩] :=
  ⟨by decide,
   (c10_agency_precedence ⟨"FAA", "40", "", ""⟩ "title" "num_words" 5
     (by decide) (Or.inl (by decide))).2⟩

end CfrCourtOpinions
